import Mathlib

/-
  Verification development for the conversation-memory core of the
  NVIDIA-NIM-BOT repository (src/conversation_memory.py).

  Shallow embedding conventions:
  * Python ints that can go negative (budgets, greedy targets) are Int;
    message token counts, which every constructor in the source produces
    as non-negative values, are Nat and are cast where they meet Int.
  * datetime.now(timezone.utc) is modelled by a Nat tick held in the
    manager state and incremented at every message creation; no claim
    depends on real time.
  * tiktoken is an external dependency that may be absent; TokenCounter
    is modelled in its fallback configuration (self.tokenizer is None),
    which is the deterministic estimator the spec describes.  Claims about
    buffer surgery are stated over arbitrary token_count values, so they
    cover runs in which tiktoken is present as well.
  * list.pop with an out-of-range index raises IndexError; fallible
    operations therefore return Except Unit.
  * int(max_tokens * config.summary_threshold) is a binary floating point
    multiplication truncated to int in the source; it is embedded as the
    rational floor.  The two can differ by at most one unit and every
    theorem below depends only on the threshold being at most the budget,
    which holds under both semantics.
  * round((total / max_tokens) * 100, 2) rounds the float ratio to two
    decimals with ties to even; it is embedded as decimal round-half-even
    on the exact rational (round_half_even / round2 below).  Python rounds
    the nearest binary64 of the ratio, which agrees with the exact-rational
    rounding except within one float ulp of a two-decimal midpoint; the
    midpoint convention itself only decides states whose token total sits
    exactly on such a midpoint.
-/

/- ===== TokenCounter (src/conversation_memory.py lines 38-72) =====
   Modelled with self.tokenizer = None (tiktoken absent), so count_tokens
   takes the fallback path.  Python "if not text" on a str is the
   emptiness test, embedded as a length test. -/

def count_tokens (text : String) : Nat :=
  if text.length = 0 then 0 else max 1 (text.length / 4)

/- ===== ConversationMessage (src/conversation_memory.py lines 18-26) ===== -/

structure ConversationMessage where
  role : String
  content : String
  timestamp : Nat
  token_count : Nat
  is_pinned : Bool
  is_summary : Bool
deriving DecidableEq, Repr

/- ===== ConversationSummarizer (src/conversation_memory.py lines 75-116) ===== -/

/- content = msg.content[:100] + "..." if len(msg.content) > 100 else msg.content -/
def truncate100 (c : String) : String :=
  if c.length > 100 then c.take 100 ++ "..." else c

def create_summary (messages : List ConversationMessage) : String :=
  if messages.isEmpty then "" else
  let user_messages := messages.filter (fun m => m.role == "user")
  let assistant_messages := messages.filter (fun m => m.role == "assistant")
  let user_parts : List String :=
    if user_messages.isEmpty then [] else
      let user_topics := user_messages.map (fun m => truncate100 m.content)
      if user_topics.length == 1 then
        ["User asked: " ++ user_topics.headD ""]
      else
        let base := "User discussed: " ++ String.intercalate "; " (user_topics.take 3)
        if user_topics.length > 3 then
          [base ++ " and " ++ toString (user_topics.length - 3) ++ " other topics"]
        else [base]
  let assistant_parts : List String :=
    if assistant_messages.isEmpty then [] else
      if assistant_messages.length == 1 then
        let c := (assistant_messages.headD ⟨"", "", 0, 0, false, false⟩).content
        let response_summary := if c.length > 150 then c.take 150 ++ "..." else c
        ["Assistant responded: " ++ response_summary]
      else
        ["Assistant provided " ++ toString assistant_messages.length ++ " detailed responses"]
  String.intercalate " | " (user_parts ++ assistant_parts)

/- ===== ModelConfig (src/conversation_memory.py lines 29-35) =====
   summary_threshold is the Python float 0.7, embedded as the rational 7/10. -/

structure ModelConfig where
  name : String
  max_tokens : Int
  reserve_tokens : Int
  summary_threshold : ℚ
deriving DecidableEq, Repr

/- Python dataclass defaults: reserve_tokens=1000, summary_threshold=0.7. -/
def mkModelConfig (name : String) (max_tokens : Int) : ModelConfig :=
  ModelConfig.mk name max_tokens 1000 ((7 : ℚ) / 10)

/- ===== MODEL_CONFIGS (src/conversation_memory.py lines 126-136) ===== -/

def MODEL_CONFIGS : List (String × ModelConfig) :=
  [("meta/llama-4-maverick-17b-128e-instruct", mkModelConfig "Llama 4 Maverick" 1000000),
   ("deepseek-ai/deepseek-r1", mkModelConfig "DeepSeek R1" 128000),
   ("qwen/qwen2.5-coder-32b-instruct", mkModelConfig "Qwen 2.5 Coder" 32000),
   ("qwen/qwen3-coder-480b-a35b-instruct", mkModelConfig "Qwen3 Coder 480B" 256000),
   ("deepseek-ai/deepseek-v3.1", mkModelConfig "DeepSeek V3.1" 128000),
   ("openai/gpt-oss-120b", mkModelConfig "GPT OSS" 128000),
   ("qwen/qwen3-235b-a22b:free", mkModelConfig "Qwen3 235B" 131000),
   ("google/gemma-3-27b-it:free", mkModelConfig "Gemma 3" 96000),
   ("x-ai/grok-4-fast:free", mkModelConfig "Grok 4" 2000000)]

/- The default system prompt seeded by ConversationMemoryManager._add_system_prompt
   (src/conversation_memory.py lines 151-193).  The triple-quoted Python literal is
   split here into 100-character chunks so that its length can be computed by the
   kernel; the concatenation below is character-for-character the source literal. -/
def sysc0 : String := "You are a highly professional, authoritative, and reliable AI assistant. When providing code example"
def sysc1 : String := "s, you MUST format them properly with markdown code blocks.\n\nPROFESSIONAL COMMUNICATION GUIDELINES -"
def sysc2 : String := " FOLLOW THESE EXACTLY:\n\n**Communication Standards:**\n- Communicate clearly, concisely, and without a"
def sysc3 : String := "mbiguity\n- Maintain a consistently formal, courteous, and respectful tone\n- Avoid offensive, inappro"
def sysc4 : String := "priate, or unprofessional language under all circumstances\n- Prioritize user objectives and intentio"
def sysc5 : String := "ns in every response\n- Adapt explanations to the user\u0027s knowledge level and context\n- Deliver action"
def sysc6 : String := "able, practical, and high-value insights wherever possible\n\n**Content Quality:**\n- Minimize filler w"
def sysc7 : String := "ords, redundancy, and irrelevant content\n- Ensure all sentences are grammatically correct, well-stru"
def sysc8 : String := "ctured, and polished\n- Favor clarity and readability over verbosity or unnecessary complexity\n- Prov"
def sysc9 : String := "ide information that is factually accurate, verifiable, and reliable\n- Never fabricate, guess, or ha"
def sysc10 : String := "llucinate information\n- Clearly indicate uncertainty when present\n\n**Formatting Requirements:**\n- Us"
def sysc11 : String := "e bullet points for enumerating items, examples, or options\n- Use numbered lists for stepwise instru"
def sysc12 : String := "ctions or processes\n- Highlight key terms or phrases with bold formatting\n- Use italics selectively "
def sysc13 : String := "for emphasis or clarification\n- Structure long responses into sections with clear headings or subhea"
def sysc14 : String := "dings\n- Keep paragraphs concise (2â€“4 sentences preferred)\n- Maintain formatting consistency throug"
def sysc15 : String := "hout responses\n\n**Response Structure:**\n- Conclude responses with actionable takeaways or recommende"
def sysc16 : String := "d next steps\n- Summarize key insights at the conclusion of explanations\n- Provide direct answers bef"
def sysc17 : String := "ore context, background, or elaboration\n- End responses with a concise summary, actionable takeaway,"
def sysc18 : String := " or next step guidance\n\n**Professional Standards:**\n- Follow user instructions exactly, without devi"
def sysc19 : String := "ation unless clarification is needed\n- Handle incomplete, vague, or partially provided queries grace"
def sysc20 : String := "fully\n- Maintain composure, neutrality, and professionalism in all interactions\n- Acknowledge limita"
def sysc21 : String := "tions or knowledge gaps transparently\n- Correct any inaccuracies promptly and professionally\n\nIMPORT"
def sysc22 : String := "ANT: If you provide ANY code, it MUST be wrapped in proper markdown code blocks. No exceptions."

def system_content : String := sysc0 ++ sysc1 ++ sysc2 ++ sysc3 ++ sysc4 ++ sysc5 ++ sysc6 ++ sysc7 ++ sysc8 ++ sysc9 ++ sysc10 ++ sysc11 ++ sysc12 ++ sysc13 ++ sysc14 ++ sysc15 ++ sysc16 ++ sysc17 ++ sysc18 ++ sysc19 ++ sysc20 ++ sysc21 ++ sysc22

/- ===== ConversationMemoryManager state (src/conversation_memory.py lines 119-147) =====
   MODEL_CONFIGS is a class attribute in the source; set_model mutates it by
   inserting default entries for unknown models, so it is carried in the state.
   clock models datetime.now (one tick per message creation). -/

structure ManagerState where
  session_id : String
  messages : List ConversationMessage
  current_model : Option String
  model_configs : List (String × ModelConfig)
  clock : Nat
deriving DecidableEq, Repr

/- _add_system_prompt (lines 149-203): appends the pinned system prompt. -/
def mk_system_prompt (ts : Nat) : ConversationMessage :=
  ConversationMessage.mk "system" system_content ts (count_tokens system_content) true false

def add_system_prompt (s : ManagerState) : ManagerState :=
  ManagerState.mk s.session_id (s.messages ++ [mk_system_prompt s.clock])
    s.current_model s.model_configs (s.clock + 1)

/- __init__ (lines 138-147). -/
def manager_init (session_id : String) : ManagerState :=
  add_system_prompt (ManagerState.mk session_id [] none MODEL_CONFIGS 0)

/- set_model (lines 205-210). -/
def set_model (s : ManagerState) (model_name : String) : ManagerState :=
  let s1 := ManagerState.mk s.session_id s.messages (some model_name) s.model_configs s.clock
  if (s1.model_configs.lookup model_name).isSome then s1
  else ManagerState.mk s1.session_id s1.messages s1.current_model
    (s1.model_configs ++ [(model_name, mkModelConfig ("Unknown-" ++ model_name) 32000)]) s1.clock

/- get_model_config (lines 212-216). -/
def get_model_config (s : ManagerState) : ModelConfig :=
  match s.current_model with
  | none => mkModelConfig "Default" 32000
  | some m => ((s.model_configs.lookup m).getD (mkModelConfig "Default" 32000))

/- _calculate_total_tokens (lines 233-235). -/
def total_tokens (msgs : List ConversationMessage) : Nat :=
  (msgs.map (fun m => m.token_count)).sum

/- A message is excluded from eviction when it is pinned or has the system
   role (lines 263 and 282-283). -/
def pinned_or_system (m : ConversationMessage) : Bool :=
  m.is_pinned || m.role == "system"

def movable (m : ConversationMessage) : Bool :=
  !m.is_pinned && m.role != "system"

/- ===== _simple_truncate (lines 256-275) =====
   The source iterates "for i in sorted(removable_indices)": sorted() is
   evaluated once, so the loop visits the indices computed before any pop,
   even though the body rebinds removable_indices (that rebinding never
   affects the iteration and is omitted here).  The enumerate-and-append
   loop at lines 261-264 produces the indices in ascending order, which is
   also what sorted returns.  list.pop(i) with i out of range raises
   IndexError, modelled by Except.error. -/

def removable_indices_from (i : Nat) : List ConversationMessage → List Nat
  | [] => []
  | m :: rest =>
    if movable m then i :: removable_indices_from (i + 1) rest
    else removable_indices_from (i + 1) rest

def removable_indices (msgs : List ConversationMessage) : List Nat :=
  removable_indices_from 0 msgs

def simple_truncate_loop (maxT : Int) :
    List Nat → List ConversationMessage → Int → Except Unit (List ConversationMessage)
  | [], msgs, _ => Except.ok msgs
  | i :: rest, msgs, current =>
    if current ≤ maxT then Except.ok msgs
    else
      match msgs.get? i with
      | none => Except.error ()
      | some removed =>
        simple_truncate_loop maxT rest (msgs.eraseIdx i) (current - (removed.token_count : Int))

def simple_truncate (msgs : List ConversationMessage) (maxT : Int) :
    Except Unit (List ConversationMessage) :=
  simple_truncate_loop maxT (removable_indices msgs) msgs ((total_tokens msgs : Int))

/- ===== _truncate_with_summary (lines 277-319) ===== -/

/- The newest-to-oldest greedy walk (lines 298-304): rev is
   reversed(unpinned_messages); msg.insert(0, _) is prepending, so walking the
   reversed list and prepending restores chronological order in both outputs. -/
def greedy_loop (target : Int) :
    List ConversationMessage → Int → List ConversationMessage → List ConversationMessage →
    List ConversationMessage × List ConversationMessage
  | [], _, keep, summ => (keep, summ)
  | m :: rest, cur, keep, summ =>
    if cur + (m.token_count : Int) ≤ target then
      greedy_loop target rest (cur + (m.token_count : Int)) (m :: keep) summ
    else
      greedy_loop target rest cur keep (m :: summ)

/- The summary message synthesized at lines 308-316: note that token_count is
   count_tokens applied to summary_content, while content carries the
   "[CONVERSATION SUMMARY] " marker in front of it. -/
def mk_summary_message (summary_content : String) (ts : Nat) : ConversationMessage :=
  ConversationMessage.mk "system" ("[CONVERSATION SUMMARY] " ++ summary_content) ts
    (count_tokens summary_content) true true

def truncate_with_summary (s : ManagerState) (maxT : Int) : Except Unit ManagerState :=
  let pinned_messages := s.messages.filter pinned_or_system
  let unpinned_messages := s.messages.filter movable
  if unpinned_messages.length ≤ 2 then
    (simple_truncate s.messages maxT).map (fun ms =>
      ManagerState.mk s.session_id ms s.current_model s.model_configs s.clock)
  else
    let pinned_tokens : Int := total_tokens pinned_messages
    let target : Int := maxT - pinned_tokens
    let ks := greedy_loop target unpinned_messages.reverse 0 [] []
    if ks.2.isEmpty then Except.ok s
    else
      let summary_content := create_summary ks.2
      Except.ok (ManagerState.mk s.session_id
        (pinned_messages ++ [mk_summary_message summary_content s.clock] ++ ks.1)
        s.current_model s.model_configs (s.clock + 1))

/- ===== _manage_buffer_size (lines 237-254) ===== -/

def manage_buffer_size (s : ManagerState) : Except Unit ManagerState :=
  let config := get_model_config s
  let maxT : Int := config.max_tokens - config.reserve_tokens
  let current : Int := (total_tokens s.messages : Int)
  if current ≤ maxT then Except.ok s
  else
    let summary_threshold : Int := Int.floor ((maxT : ℚ) * config.summary_threshold)
    if current > summary_threshold then truncate_with_summary s maxT
    else
      (simple_truncate s.messages maxT).map (fun ms =>
        ManagerState.mk s.session_id ms s.current_model s.model_configs s.clock)

/- ===== add_message (lines 218-231) ===== -/

def add_message (s : ManagerState) (role content : String) (is_pinned : Bool) :
    Except Unit (ManagerState × ConversationMessage) :=
  let message := ConversationMessage.mk role content s.clock (count_tokens content) is_pinned false
  let s1 := ManagerState.mk s.session_id (s.messages ++ [message])
    s.current_model s.model_configs (s.clock + 1)
  (manage_buffer_size s1).map (fun s2 => (s2, message))

/- ===== get_conversation_buffer (lines 321-340) =====
   The optional "_metadata" debugging entry is modelled by the meta_is_summary
   flag (present exactly when msg.is_summary is true). -/

structure ApiMessage where
  role : String
  content : String
  meta_is_summary : Bool
deriving DecidableEq, Repr

def get_conversation_buffer (s : ManagerState) : List ApiMessage :=
  s.messages.map (fun m => ApiMessage.mk m.role m.content m.is_summary)

/- ===== get_conversation_stats (lines 342-356) =====
   utilization_percent is round((total / max_tokens) * 100, 2): the ratio
   rounded to two decimals, ties to even, embedded on exact rationals. -/

def clear_conversation (s : ManagerState) (keep_system_prompt : Bool) : ManagerState :=
  if keep_system_prompt then
    ManagerState.mk s.session_id
      (s.messages.filter (fun m => m.is_pinned && m.role == "system"))
      s.current_model s.model_configs s.clock
  else
    add_system_prompt (ManagerState.mk s.session_id [] s.current_model s.model_configs s.clock)

/- ===== import_conversation (lines 376-387) =====
   Exported message dicts may miss fields; role, content and timestamp have no
   dataclass default, so ConversationMessage(**msg_data) raises TypeError when
   one of them is absent, while token_count, is_pinned, is_summary default to
   0, False, False.  A timestamp serialized as a string is parsed with
   datetime.fromisoformat after replacing "Z" by "+00:00"; fromisoformat is
   external library code, abstracted by the parse_iso parameter (None means
   ValueError).  The source mutates session_id, current_model and messages in
   place and lets the first failure escape as an exception, so the model
   returns the state as left at the failure point together with a success
   flag. -/

inductive TsData where
  | dt (t : Nat)
  | iso (sv : String)
deriving DecidableEq, Repr

structure MsgData where
  role : Option String
  content : Option String
  timestamp : Option TsData
  token_count : Option Nat
  is_pinned : Option Bool
  is_summary : Option Bool
deriving DecidableEq, Repr

structure ImportData where
  session_id : Option String
  current_model : Option String
  messages : List MsgData
deriving DecidableEq, Repr

def parse_msg (parse_iso : String → Option Nat) (md : MsgData) : Option ConversationMessage :=
  match md.role, md.content, md.timestamp with
  | some r, some c, some ts =>
    let tv : Option Nat :=
      match ts with
      | TsData.dt t => some t
      | TsData.iso sv => parse_iso (sv.replace "Z" "+00:00")
    match tv with
    | some t => some (ConversationMessage.mk r c t (md.token_count.getD 0)
        (md.is_pinned.getD false) (md.is_summary.getD false))
    | none => none
  | _, _, _ => none

def import_msgs (parse_iso : String → Option Nat) :
    List MsgData → List ConversationMessage → List ConversationMessage × Bool
  | [], acc => (acc, true)
  | md :: rest, acc =>
    match parse_msg parse_iso md with
    | some m => import_msgs parse_iso rest (acc ++ [m])
    | none => (acc, false)

def import_conversation (parse_iso : String → Option Nat) (s : ManagerState)
    (data : ImportData) : ManagerState × Bool :=
  let res := import_msgs parse_iso data.messages []
  (ManagerState.mk (data.session_id.getD "default") res.1 data.current_model
    s.model_configs s.clock, res.2)

/- ===== Definitions written from the words of the spec / claims =====
   These are deliberately NOT taken from the source; they exist so that
   refinement-style claims can compare the source behaviour against the
   behaviour the spec describes. -/

/- Claim C4 describes the fallback estimator as a word/punctuation formula
   (spec 4.1): w = number of whitespace-separated words, p = number of
   characters that are neither alphanumeric nor whitespace, result
   max(1, round(w * 1.3) + floor(p / 3)), and 0 for empty text.
   word_count counts maximal whitespace-free runs, which is what splitting
   on whitespace and dropping empty pieces yields. -/
def word_count_aux : List Char → Bool → Nat
  | [], _ => 0
  | c :: rest, inWord =>
    if c.isWhitespace then word_count_aux rest false
    else (if inWord then 0 else 1) + word_count_aux rest true

def word_count (text : String) : Nat := word_count_aux text.toList false

def claimed_fallback_estimate (text : String) : Int :=
  if text.length = 0 then 0
  else
    let w : Nat := word_count text
    let p : Nat := (text.toList.filter (fun c => !c.isAlphanum && !c.isWhitespace)).length
    max 1 (round ((w : ℚ) * 13 / 10) + ((p / 3 : Nat) : Int))

/- The amended C4 formula: the source fallback is the 4-characters-per-token
   approximation, max(1, floor(len(text)/4)) for non-empty text and 0 for
   empty text. -/
def amended_fallback_estimate (text : String) : Nat :=
  if text = "" then 0 else max 1 (text.length / 4)

/- Claim C9 phrasing of the summarizer, written from the spec sentence
   structure (clip to n characters appending "..." when truncated; user part
   and assistant part as optional strings joined by " | "). -/
def clip (n : Nat) (c : String) : String :=
  if c.length > n then c.take n ++ "..." else c

def claimed_create_summary (messages : List ConversationMessage) : String :=
  if messages = [] then "" else
  let users := messages.filter (fun m => m.role == "user")
  let assistants := messages.filter (fun m => m.role == "assistant")
  let userPart : List String :=
    match users with
    | [] => []
    | [u] => ["User asked: " ++ clip 100 u.content]
    | _ =>
      ["User discussed: " ++
        String.intercalate "; " ((users.take 3).map (fun m => clip 100 m.content)) ++
        (if 3 < users.length then
          " and " ++ toString (users.length - 3) ++ " other topics" else "")]
  let assistantPart : List String :=
    match assistants with
    | [] => []
    | [a] => ["Assistant responded: " ++ clip 150 a.content]
    | _ => ["Assistant provided " ++ toString assistants.length ++ " detailed responses"]
  String.intercalate " | " (userPart ++ assistantPart)

/- Claim C10: the variant of _manage_buffer_size with the direct
   _simple_truncate else-branch removed. -/
def manage_buffer_size_nosimple (s : ManagerState) : Except Unit ManagerState :=
  let config := get_model_config s
  let maxT : Int := config.max_tokens - config.reserve_tokens
  let current : Int := (total_tokens s.messages : Int)
  if current ≤ maxT then Except.ok s
  else truncate_with_summary s maxT

/- Every ModelConfig the manager can ever resolve has the dataclass defaults
   reserve_tokens = 1000 and summary_threshold = 0.7, and max_tokens at least
   32000 (claim C10). -/
def std_config (c : ModelConfig) : Prop :=
  c.summary_threshold = (7 : ℚ) / 10 ∧ c.reserve_tokens = 1000 ∧ 32000 ≤ c.max_tokens

instance (c : ModelConfig) : Decidable (std_config c) := by
  unfold std_config; infer_instance

/- Concrete inputs used by the counterexample runs below: a string of n
   copies of the character a. -/
def big_a (n : Nat) : String := String.mk (List.replicate n 'a')

/- Counterexample run for claim C1: from a fresh default-model session, two
   small user messages followed by a large pinned message.  The triggered
   eviction pass pops stale indices and deletes the pinned message. -/
def c1_run : Except Unit (ManagerState × ConversationMessage) := do
  let r1 ← add_message (manager_init "default") "user" "a" false
  let r2 ← add_message r1.1 "user" "a" false
  add_message r2.1 "user" (big_a 124000) true

/- Counterexample run for claim C2: a small user message followed by one of
   124004 characters (31001 estimated tokens); the eviction pass pops index 2
   of a two-element list. -/
def c2_run : Except Unit (ManagerState × ConversationMessage) := do
  let r1 ← add_message (manager_init "default") "user" "a" false
  add_message r1.1 "user" (big_a 124004) false

/- Counterexample run for claims C3 and C6: three user messages of 1, 427 and
   30000 estimated tokens; the summarize-and-evict pass keeps the newest two
   (427 + 30000 = 31000 - 573 = the whole remaining budget) and appends a
   summary message whose tokens push the total over budget. -/
def c3_run : Except Unit (ManagerState × ConversationMessage) := do
  let r1 ← add_message (manager_init "default") "user" "a" false
  let r2 ← add_message r1.1 "user" (big_a 1708) false
  add_message r2.1 "user" (big_a 120000) false

/- Small hand-built states used to instantiate the universally quantified
   theorems below (witnesses and the C8 counterexample). -/

/- Over budget 12, with one system message and three movable user messages. -/
def c5w : ManagerState :=
  ManagerState.mk "w"
    [ConversationMessage.mk "system" "sp" 0 10 true false,
     ConversationMessage.mk "user" "a" 1 5 false false,
     ConversationMessage.mk "user" "b" 2 5 false false,
     ConversationMessage.mk "user" "c" 3 5 false false]
    none [] 4

/- An empty-buffer state for instantiating the eviction invariant. -/
def c3aw : ManagerState := ManagerState.mk "w" [] none [] 0

/- Import payload whose single message entry misses the content field:
   ConversationMessage(**msg_data) raises TypeError on it. -/
def c7_bad_data : ImportData :=
  ImportData.mk (some "evil") none [MsgData.mk (some "user") none none none none none]

/- Messages and states arising in the counterexample runs c1_run, c2_run and
   c3_run (fallback estimator: "a" counts 1 token, the system prompt 573). -/
def S0msg : ConversationMessage :=
  ConversationMessage.mk "system" system_content 0 573 true false

def c1u1 : ConversationMessage := ConversationMessage.mk "user" "a" 1 1 false false

def c1u2 : ConversationMessage := ConversationMessage.mk "user" "a" 2 1 false false

def c1p3 : ConversationMessage :=
  ConversationMessage.mk "user" (big_a 124000) 3 31000 true false

def c1fin : ManagerState := ManagerState.mk "default" [S0msg, c1u2] none MODEL_CONFIGS 4

def c2u2 : ConversationMessage :=
  ConversationMessage.mk "user" (big_a 124004) 2 31001 false false

def c3u2 : ConversationMessage :=
  ConversationMessage.mk "user" (big_a 1708) 2 427 false false

def c3u3 : ConversationMessage :=
  ConversationMessage.mk "user" (big_a 120000) 3 30000 false false

def c3sum : ConversationMessage :=
  ConversationMessage.mk "system" "[CONVERSATION SUMMARY] User asked: a" 4 3 true true

def c3fin : ManagerState :=
  ManagerState.mk "default" [S0msg, c3sum, c3u2, c3u3] none MODEL_CONFIGS 5

/- A tiny successful add used to instantiate the token-count invariant. -/
def cw6msg : ConversationMessage := ConversationMessage.mk "user" "hi" 0 1 false false

def cw6state : ManagerState := ManagerState.mk "w" [cw6msg] none [] 1

/- ===== Theorems ===== -/

theorem system_content_length : system_content.length = 2295 := by
  simp only [system_content, String.length_append]
  norm_num [String.length, sysc0, sysc1, sysc2, sysc3, sysc4, sysc5, sysc6, sysc7, sysc8, sysc9, sysc10, sysc11, sysc12, sysc13, sysc14, sysc15, sysc16, sysc17, sysc18, sysc19, sysc20, sysc21, sysc22]

theorem count_system_content : count_tokens system_content = 573 := by
  simp [count_tokens, system_content_length]

theorem length_big_a (n : Nat) : (big_a n).length = n := by
  simp [big_a, String.length_mk, List.length_replicate]

theorem count_big_a (n : Nat) (h : n ≠ 0) : count_tokens (big_a n) = max 1 (n / 4) := by
  simp [count_tokens, length_big_a, h]

theorem string_length_eq_zero_iff (s : String) : s.length = 0 ↔ s = "" := by
  constructor
  · intro h
    have hd : s.data = [] := List.length_eq_zero.mp h
    cases s
    simp_all
  · intro h; subst h; rfl

theorem lookup_mem_configs :
    ∀ (l : List (String × ModelConfig)) (k : String) (c : ModelConfig),
      l.lookup k = some c → (k, c) ∈ l := by
  intro l
  induction l with
  | nil => intro k c h; simp [List.lookup] at h
  | cons e t ih =>
    intro k c h
    rcases e with ⟨k1, c1⟩
    rw [List.lookup] at h
    split at h
    · rename_i hk
      have hkk : k = k1 := by simpa using hk
      have hcc : c1 = c := by injection h
      subst hkk; subst hcc
      exact List.mem_cons_self _ _
    · exact List.mem_cons_of_mem _ (ih k c h)

theorem std_config_mk (nm : String) (mt : Int) (h : 32000 ≤ mt) :
    std_config (mkModelConfig nm mt) :=
  ⟨rfl, rfl, h⟩

theorem std_config_default : std_config (mkModelConfig "Default" 32000) :=
  std_config_mk _ _ (by norm_num)

theorem model_configs_std : ∀ e ∈ MODEL_CONFIGS, std_config e.2 := by
  intro e he
  unfold MODEL_CONFIGS at he
  simp only [List.mem_cons, List.not_mem_nil, or_false] at he
  rcases he with rfl | rfl | rfl | rfl | rfl | rfl | rfl | rfl | rfl <;>
    exact std_config_mk _ _ (by norm_num)

/-- Claim C4: with no primary tokenizer, the estimator is claimed to return
max(1, round(w * 1.3) + floor(p / 3)) over word and punctuation counts.  The
source fallback (line 63) is max(1, len(text) // 4) instead: on
"hello world" the code returns 2 while the claimed formula gives
round(2 * 1.3) = 3. -/
theorem C4_counterexample :
    count_tokens "hello world" = 2 ∧
    claimed_fallback_estimate "hello world" = 3 ∧
    ((count_tokens "hello world" : Int) ≠ claimed_fallback_estimate "hello world") := by
  have hw : word_count "hello world" = 2 := by decide
  have hp : (("hello world".toList.filter
      (fun c => !c.isAlphanum && !c.isWhitespace)).length) = 0 := by decide
  have hc : count_tokens "hello world" = 2 := by decide
  have hround : round (((2 : Nat) : ℚ) * 13 / 10) = 3 := by
    rw [round_eq]
    rw [show ((((2 : Nat) : ℚ)) * 13 / 10 + 1 / 2) = 31 / 10 by norm_num]
    rw [Int.floor_eq_iff]
    norm_num
  have h3 : claimed_fallback_estimate "hello world" = 3 := by
    unfold claimed_fallback_estimate
    rw [if_neg (by decide)]
    simp only [hw, hp, hround]
    decide
  refine ⟨hc, h3, ?_⟩
  rw [hc, h3]
  decide

/-- Claim C4 amended: when no primary tokenizer is available the estimator
returns max(1, floor(len(text) / 4)) for non-empty text (about four
characters per token) and 0 for empty or null text. -/
theorem C4_amended_fallback (text : String) :
    count_tokens text = amended_fallback_estimate text := by
  unfold count_tokens amended_fallback_estimate
  by_cases h : text = ""
  · subst h; rfl
  · rw [if_neg h, if_neg (fun hl => h ((string_length_eq_zero_iff text).mp hl))]

theorem get_model_config_std (s : ManagerState)
    (hstd : ∀ e ∈ s.model_configs, std_config e.2) :
    std_config (get_model_config s) := by
  unfold get_model_config
  rcases hcm : s.current_model with _ | m
  · exact std_config_default
  · show std_config ((s.model_configs.lookup m).getD (mkModelConfig "Default" 32000))
    rcases hl : s.model_configs.lookup m with _ | c
    · exact std_config_default
    · exact hstd (m, c) (lookup_mem_configs _ _ _ hl)

/- The summarization threshold int(max_tokens * 0.7) is always strictly below
any over-budget token total: for a non-negative budget the threshold is at
most the budget, and for a negative budget the threshold is negative while
token totals are not. -/
theorem threshold_lt_current (maxT current : Int)
    (h : maxT < current) (h0 : 0 ≤ current) :
    Int.floor ((maxT : ℚ) * ((7 : ℚ) / 10)) < current := by
  rcases le_or_lt 0 maxT with hm | hm
  · have h1 : (maxT : ℚ) * ((7 : ℚ) / 10) ≤ (maxT : ℚ) := by
      have hq : (0 : ℚ) ≤ (maxT : ℚ) := by exact_mod_cast hm
      nlinarith
    have h2 : Int.floor ((maxT : ℚ) * ((7 : ℚ) / 10)) ≤ maxT := by
      calc Int.floor ((maxT : ℚ) * ((7 : ℚ) / 10)) ≤ Int.floor ((maxT : ℚ)) :=
            Int.floor_mono h1
        _ = maxT := Int.floor_intCast maxT
    omega
  · have h1 : (maxT : ℚ) * ((7 : ℚ) / 10) < 0 := by
      have hq : (maxT : ℚ) < 0 := by exact_mod_cast hm
      nlinarith
    have h2 : Int.floor ((maxT : ℚ) * ((7 : ℚ) / 10)) < 0 := by
      rw [Int.floor_lt]
      exact_mod_cast h1
    omega

/-- Claim C10: every ModelConfig the manager can resolve (the built-in table,
the lazily inserted unknown-model defaults, and the Default fallback) keeps
summary_threshold = 0.7, so whenever the total exceeds the budget it also
exceeds the threshold and _manage_buffer_size always calls
_truncate_with_summary: the function is extensionally equal to the variant
without the direct _simple_truncate else-branch. -/
theorem C10_manage_nosimple :
    (∀ e ∈ MODEL_CONFIGS, std_config e.2) ∧
    (∀ s m, (∀ e ∈ s.model_configs, std_config e.2) →
        ∀ e ∈ (set_model s m).model_configs, std_config e.2) ∧
    (∀ s : ManagerState, (∀ e ∈ s.model_configs, std_config e.2) →
        manage_buffer_size s = manage_buffer_size_nosimple s) := by
  refine ⟨model_configs_std, ?_, ?_⟩
  · intro s m hstd e he
    unfold set_model at he
    by_cases hl : ((s.model_configs.lookup m).isSome : Prop)
    · rw [if_pos hl] at he
      exact hstd e he
    · rw [if_neg hl] at he
      simp only [List.mem_append] at he
      rcases he with he | he
      · exact hstd e he
      · simp only [List.mem_singleton] at he
        subst he
        exact std_config_mk _ _ (by norm_num)
  · intro s hstd
    have hth : (get_model_config s).summary_threshold = (7 : ℚ) / 10 :=
      (get_model_config_std s hstd).1
    unfold manage_buffer_size manage_buffer_size_nosimple
    simp only [hth]
    by_cases h1 :
        ((total_tokens s.messages : Int) ≤
          (get_model_config s).max_tokens - (get_model_config s).reserve_tokens : Prop)
    · rw [if_pos h1, if_pos h1]
    · rw [if_neg h1, if_neg h1]
      have hlt := threshold_lt_current
        ((get_model_config s).max_tokens - (get_model_config s).reserve_tokens)
        (total_tokens s.messages : Int) (by omega) (by positivity)
      rw [if_pos hlt]

/-- Concrete instantiation of C10: the fresh default-session manager satisfies
the standard-config hypothesis, and on it _manage_buffer_size agrees with the
variant without the else-branch. -/
theorem C10_witness :
    (∀ e ∈ (manager_init "w").model_configs, std_config e.2) ∧
    manage_buffer_size (manager_init "w") = manage_buffer_size_nosimple (manager_init "w") :=
  ⟨model_configs_std, C10_manage_nosimple.2.2 _ model_configs_std⟩

theorem truncate100_eq_clip (c : String) : truncate100 c = clip 100 c := rfl

theorem user_parts_eq (l : List ConversationMessage) :
    (if l.isEmpty then ([] : List String)
     else
       let user_topics := l.map (fun m => truncate100 m.content)
       if user_topics.length == 1 then
         ["User asked: " ++ user_topics.headD ""]
       else
         let base := "User discussed: " ++ String.intercalate "; " (user_topics.take 3)
         if user_topics.length > 3 then
           [base ++ " and " ++ toString (user_topics.length - 3) ++ " other topics"]
         else [base]) =
    (match l with
     | [] => ([] : List String)
     | [u] => ["User asked: " ++ clip 100 u.content]
     | _ =>
       ["User discussed: " ++
         String.intercalate "; " ((l.take 3).map (fun m => clip 100 m.content)) ++
         (if 3 < l.length then " and " ++ toString (l.length - 3) ++ " other topics"
          else "")]) := by
  rcases l with _ | ⟨u, _ | ⟨u2, us⟩⟩
  · rfl
  · simp [truncate100_eq_clip]
  · simp only [List.isEmpty_cons, Bool.false_eq_true, if_false]
    rw [if_neg (by simp)]
    by_cases h3 : 3 < us.length + 2
    · rw [if_pos (by simp; omega)]
      rw [if_pos (by simpa using h3)]
      simp [← List.map_take, truncate100_eq_clip, String.append_assoc]
    · rw [if_neg (by simp; omega)]
      rw [if_neg (by simpa using h3)]
      simp [← List.map_take, truncate100_eq_clip, String.append_empty]

theorem assistant_parts_eq (l : List ConversationMessage) :
    (if l.isEmpty then ([] : List String)
     else
       if l.length == 1 then
         let c := (l.headD ⟨"", "", 0, 0, false, false⟩).content
         let response_summary := if c.length > 150 then c.take 150 ++ "..." else c
         ["Assistant responded: " ++ response_summary]
       else
         ["Assistant provided " ++ toString l.length ++ " detailed responses"]) =
    (match l with
     | [] => ([] : List String)
     | [a] => ["Assistant responded: " ++ clip 150 a.content]
     | _ =>
       ["Assistant provided " ++ toString l.length ++ " detailed responses"]) := by
  rcases l with _ | ⟨a, _ | ⟨a2, as⟩⟩
  · rfl
  · simp [clip]
  · simp only [List.isEmpty_cons, Bool.false_eq_true, if_false]
    rw [if_neg (by simp)]

/-- Claim C9: create_summary returns the empty string on empty input, and
otherwise the " | "-join of the user part (single user message: "User asked: "
plus the 100-character truncation; several: "User discussed: " over the first
three truncations with " and k other topics" appended when more than three
exist) and the assistant part (single: "Assistant responded: " plus the
150-character truncation; several: "Assistant provided n detailed responses"),
exactly as claimed. -/
theorem C9_create_summary (messages : List ConversationMessage) :
    create_summary messages = claimed_create_summary messages := by
  unfold create_summary claimed_create_summary
  by_cases hm : messages = []
  · subst hm; rfl
  · rw [if_neg (by simpa [List.isEmpty_iff] using hm), if_neg hm]
    simp only [user_parts_eq, assistant_parts_eq]

theorem movable_eq_not_pinned (m : ConversationMessage) :
    movable m = !pinned_or_system m := by
  unfold movable pinned_or_system
  simp only [bne]
  cases m.is_pinned <;> cases hb : (m.role == "system") <;> rfl

theorem total_tokens_cons (m : ConversationMessage) (l : List ConversationMessage) :
    total_tokens (m :: l) = m.token_count + total_tokens l := by
  simp [total_tokens]

theorem total_tokens_append (l1 l2 : List ConversationMessage) :
    total_tokens (l1 ++ l2) = total_tokens l1 + total_tokens l2 := by
  simp [total_tokens]

theorem total_tokens_partition (l : List ConversationMessage) :
    total_tokens l =
      total_tokens (l.filter pinned_or_system) + total_tokens (l.filter movable) := by
  induction l with
  | nil => rfl
  | cons m t ih =>
    cases hp : pinned_or_system m
    · have hm : movable m = true := by rw [movable_eq_not_pinned, hp]; rfl
      simp [List.filter_cons, hp, hm, total_tokens_cons, ih]
      omega
    · have hm : movable m = false := by rw [movable_eq_not_pinned, hp]; rfl
      simp [List.filter_cons, hp, hm, total_tokens_cons, ih]
      omega

theorem get_eraseIdx_ge (l : List ConversationMessage) :
    ∀ i j : Nat, i ≤ j → (l.eraseIdx i).get? j = l.get? (j + 1) := by
  induction l with
  | nil => intro i j _; simp [List.eraseIdx]
  | cons a t ih =>
    intro i j hij
    cases i with
    | zero => simp [List.eraseIdx, List.get?]
    | succ i1 =>
      cases j with
      | zero => omega
      | succ j1 =>
        show ((a :: t.eraseIdx i1).get? (j1 + 1)) = (a :: t).get? (j1 + 2)
        simp only [List.get?]
        exact ih i1 j1 (by omega)

theorem total_tokens_eraseIdx (l : List ConversationMessage) :
    ∀ (i : Nat) (m : ConversationMessage), l.get? i = some m →
      total_tokens (l.eraseIdx i) + m.token_count = total_tokens l := by
  induction l with
  | nil => intro i m h; simp [List.get?] at h
  | cons a t ih =>
    intro i m h
    cases i with
    | zero =>
      simp only [List.get?, Option.some.injEq] at h
      subst h
      simp [List.eraseIdx, total_tokens_cons]
      omega
    | succ i1 =>
      simp only [List.get?] at h
      have hih := ih i1 m h
      simp [List.eraseIdx, total_tokens_cons]
      omega

theorem filter_length_eraseIdx (p : ConversationMessage → Bool)
    (l : List ConversationMessage) :
    ∀ (i : Nat) (m : ConversationMessage), l.get? i = some m →
      ((l.eraseIdx i).filter p).length + (if p m then 1 else 0) =
        (l.filter p).length := by
  induction l with
  | nil => intro i m h; simp [List.get?] at h
  | cons a t ih =>
    intro i m h
    cases i with
    | zero =>
      simp only [List.get?, Option.some.injEq] at h
      subst h
      cases hp : p a <;> simp [List.eraseIdx, List.filter_cons, hp]
    | succ i1 =>
      simp only [List.get?] at h
      have hih := ih i1 m h
      cases hp : p a <;> cases hm : p m <;>
        simp [List.eraseIdx, List.filter_cons, hp, hm] at hih ⊢ <;>
        omega

theorem rif_mem_ge (l : List ConversationMessage) :
    ∀ off x, x ∈ removable_indices_from off l → off ≤ x := by
  induction l with
  | nil => intro off x h; simp [removable_indices_from] at h
  | cons m t ih =>
    intro off x h
    unfold removable_indices_from at h
    by_cases hm : movable m = true
    · rw [if_pos hm] at h
      rcases List.mem_cons.mp h with rfl | h2
      · exact le_refl _
      · have := ih (off + 1) x h2; omega
    · rw [if_neg hm] at h
      have := ih (off + 1) x h; omega

theorem rif_mem_get (l : List ConversationMessage) :
    ∀ off x, x ∈ removable_indices_from off l →
      ∃ m, l.get? (x - off) = some m ∧ movable m = true := by
  induction l with
  | nil => intro off x h; simp [removable_indices_from] at h
  | cons m t ih =>
    intro off x h
    unfold removable_indices_from at h
    by_cases hm : movable m = true
    · rw [if_pos hm] at h
      rcases List.mem_cons.mp h with rfl | h2
      · exact ⟨m, by simp [List.get?], hm⟩
      · have hge := rif_mem_ge t (off + 1) x h2
        obtain ⟨m2, hg, hm2⟩ := ih (off + 1) x h2
        refine ⟨m2, ?_, hm2⟩
        have hx : x - off = (x - (off + 1)) + 1 := by omega
        rw [hx]
        simpa [List.get?] using hg
    · rw [if_neg hm] at h
      have hge := rif_mem_ge t (off + 1) x h
      obtain ⟨m2, hg, hm2⟩ := ih (off + 1) x h
      refine ⟨m2, ?_, hm2⟩
      have hx : x - off = (x - (off + 1)) + 1 := by omega
      rw [hx]
      simpa [List.get?] using hg

theorem rif_mem_lt (l : List ConversationMessage) :
    ∀ off x, x ∈ removable_indices_from off l → x < off + l.length := by
  induction l with
  | nil => intro off x h; simp [removable_indices_from] at h
  | cons m t ih =>
    intro off x h
    unfold removable_indices_from at h
    by_cases hm : movable m = true
    · rw [if_pos hm] at h
      rcases List.mem_cons.mp h with rfl | h2
      · simp
      · have := ih (off + 1) x h2
        simp only [List.length_cons]
        omega
    · rw [if_neg hm] at h
      have := ih (off + 1) x h
      simp only [List.length_cons]
      omega

theorem rif_mem_of_movable (l : List ConversationMessage) :
    ∀ off j m, l.get? j = some m → movable m = true →
      (off + j) ∈ removable_indices_from off l := by
  induction l with
  | nil => intro off j m h; simp [List.get?] at h
  | cons a t ih =>
    intro off j m h hm
    unfold removable_indices_from
    cases j with
    | zero =>
      simp only [List.get?, Option.some.injEq] at h
      subst h
      rw [if_pos hm]
      simp
    | succ j1 =>
      simp only [List.get?] at h
      have hmem := ih (off + 1) j1 m h hm
      have harr : off + (j1 + 1) = (off + 1) + j1 := by omega
      by_cases ha : movable a = true
      · rw [if_pos ha]
        rw [harr]
        exact List.mem_cons_of_mem _ hmem
      · rw [if_neg ha]
        rw [harr]
        exact hmem

theorem rif_pairwise (l : List ConversationMessage) :
    ∀ off, List.Pairwise (· < ·) (removable_indices_from off l) := by
  induction l with
  | nil => intro off; simp [removable_indices_from]
  | cons m t ih =>
    intro off
    unfold removable_indices_from
    by_cases hm : movable m = true
    · rw [if_pos hm]
      refine List.Pairwise.cons ?_ (ih (off + 1))
      intro x hx
      have := rif_mem_ge t (off + 1) x hx
      omega
    · rw [if_neg hm]
      exact ih (off + 1)

theorem rif_length (l : List ConversationMessage) :
    ∀ off, (removable_indices_from off l).length = (l.filter movable).length := by
  induction l with
  | nil => intro off; rfl
  | cons m t ih =>
    intro off
    unfold removable_indices_from
    cases hm : movable m <;> simp [List.filter_cons, hm, ih (off + 1)]

theorem greedy_keep_split (t : Int) (rev : List ConversationMessage) :
    ∀ cur k0 s0, ∃ l, (greedy_loop t rev cur k0 s0).1 = l ++ k0 ∧
      l.Sublist rev.reverse := by
  induction rev with
  | nil => intro cur k0 s0; exact ⟨[], rfl, by simp⟩
  | cons m rest ih =>
    intro cur k0 s0
    unfold greedy_loop
    by_cases hc : cur + (m.token_count : Int) ≤ t
    · rw [if_pos hc]
      obtain ⟨l, hl, hs⟩ := ih (cur + (m.token_count : Int)) (m :: k0) s0
      refine ⟨l ++ [m], ?_, ?_⟩
      · rw [List.append_assoc]
        simpa using hl
      · simp only [List.reverse_cons]
        exact hs.append (List.Sublist.refl [m])
    · rw [if_neg hc]
      obtain ⟨l, hl, hs⟩ := ih cur k0 (m :: s0)
      refine ⟨l, hl, ?_⟩
      simp only [List.reverse_cons]
      exact hs.trans (List.sublist_append_left _ _)

theorem greedy_summ_split (t : Int) (rev : List ConversationMessage) :
    ∀ cur k0 s0, ∃ l, (greedy_loop t rev cur k0 s0).2 = l ++ s0 ∧
      l.Sublist rev.reverse := by
  induction rev with
  | nil => intro cur k0 s0; exact ⟨[], rfl, by simp⟩
  | cons m rest ih =>
    intro cur k0 s0
    unfold greedy_loop
    by_cases hc : cur + (m.token_count : Int) ≤ t
    · rw [if_pos hc]
      obtain ⟨l, hl, hs⟩ := ih (cur + (m.token_count : Int)) (m :: k0) s0
      refine ⟨l, hl, ?_⟩
      simp only [List.reverse_cons]
      exact hs.trans (List.sublist_append_left _ _)
    · rw [if_neg hc]
      obtain ⟨l, hl, hs⟩ := ih cur k0 (m :: s0)
      refine ⟨l ++ [m], ?_, ?_⟩
      · rw [List.append_assoc]
        simpa using hl
      · simp only [List.reverse_cons]
        exact hs.append (List.Sublist.refl [m])

theorem greedy_summ_nil (t : Int) (rev : List ConversationMessage) :
    ∀ cur k0 s0, (greedy_loop t rev cur k0 s0).2 = s0 →
      cur + (total_tokens rev : Int) ≤ t ∨ rev = [] := by
  induction rev with
  | nil => intro cur k0 s0 _; right; rfl
  | cons m rest ih =>
    intro cur k0 s0 h
    left
    unfold greedy_loop at h
    by_cases hc : cur + (m.token_count : Int) ≤ t
    · rw [if_pos hc] at h
      rcases ih (cur + (m.token_count : Int)) (m :: k0) s0 h with h2 | h2
      · rw [total_tokens_cons]
        push_cast
        linarith
      · subst h2
        rw [total_tokens_cons]
        simpa using hc
    · rw [if_neg hc] at h
      obtain ⟨l, hl, _⟩ := greedy_summ_split t rest cur k0 (m :: s0)
      rw [hl] at h
      exfalso
      have hlen := congrArg List.length h
      simp at hlen
      omega

theorem greedy_keep_sum (t : Int) (rev : List ConversationMessage) :
    ∀ cur k0 s0, cur ≤ t →
      (total_tokens (greedy_loop t rev cur k0 s0).1 : Int) ≤
        t + (total_tokens k0 : Int) - cur := by
  induction rev with
  | nil =>
    intro cur k0 s0 h
    show (total_tokens k0 : Int) ≤ t + (total_tokens k0 : Int) - cur
    omega
  | cons m rest ih =>
    intro cur k0 s0 h
    unfold greedy_loop
    by_cases hc : cur + (m.token_count : Int) ≤ t
    · rw [if_pos hc]
      have := ih (cur + (m.token_count : Int)) (m :: k0) s0 hc
      rw [total_tokens_cons] at this
      push_cast at this
      linarith
    · rw [if_neg hc]
      exact ih cur k0 (m :: s0) h

theorem greedy_keep_neg (t : Int) (rev : List ConversationMessage) :
    ∀ cur k0 s0, t < 0 → 0 ≤ cur → (greedy_loop t rev cur k0 s0).1 = k0 := by
  induction rev with
  | nil => intro cur k0 s0 _ _; rfl
  | cons m rest ih =>
    intro cur k0 s0 ht hc
    unfold greedy_loop
    rw [if_neg (fun hcon => absurd hcon (by
      have hpos : (0 : Int) ≤ (m.token_count : Int) := Int.natCast_nonneg _
      omega))]
    exact ih cur k0 (m :: s0) ht hc

theorem total_tokens_reverse (l : List ConversationMessage) :
    total_tokens l.reverse = total_tokens l := by
  simp [total_tokens, List.map_reverse, List.sum_reverse]

theorem pinned_of_not_movable (m : ConversationMessage) (h : movable m = false) :
    pinned_or_system m = true := by
  have h2 := movable_eq_not_pinned m
  rw [h] at h2
  cases hp : pinned_or_system m
  · rw [hp] at h2; simp at h2
  · rfl

theorem all_pinned_of_no_movable (l : List ConversationMessage)
    (h : (l.filter movable).length = 0) :
    ∀ m ∈ l, pinned_or_system m = true := by
  intro m hm
  have hnil : l.filter movable = [] := List.length_eq_zero.mp h
  by_cases hmv : movable m = true
  · exfalso
    have hmem : m ∈ l.filter movable := List.mem_filter.mpr ⟨hm, hmv⟩
    rw [hnil] at hmem
    simp at hmem
  · exact pinned_of_not_movable m (by simpa using hmv)

/- Behaviour of a completed _simple_truncate pass when the buffer holds at
   most two movable messages (the only way add_message can reach it, via the
   fallback inside _truncate_with_summary): the result is under budget, or
   everything left is pinned/system, or the stale second index removed a
   pinned/system message. -/
theorem simple_truncate_cases (msgs : List ConversationMessage) (maxT : Int)
    (ms : List ConversationMessage)
    (hmov : (msgs.filter movable).length ≤ 2)
    (hok : simple_truncate msgs maxT = Except.ok ms) :
    (total_tokens ms : Int) ≤ maxT ∨
    (∀ m ∈ ms, pinned_or_system m = true) ∨
    (ms.filter pinned_or_system).length < (msgs.filter pinned_or_system).length := by
  unfold simple_truncate at hok
  unfold removable_indices at hok
  have hlen : (removable_indices_from 0 msgs).length = (msgs.filter movable).length :=
    rif_length msgs 0
  rcases hri : removable_indices_from 0 msgs with _ | ⟨i, _ | ⟨j, rest⟩⟩
  · -- no movable message at all
    rw [hri] at hok hlen
    simp only [List.length_nil] at hlen
    unfold simple_truncate_loop at hok
    injection hok with hok
    subst hok
    right; left
    apply all_pinned_of_no_movable
    omega
  · -- exactly one movable message, at index i
    rw [hri] at hok hlen
    simp only [List.length_cons, List.length_nil] at hlen
    have hi : i ∈ removable_indices_from 0 msgs := by
      rw [hri]; simp
    obtain ⟨mi, hgi, hmovi⟩ := rif_mem_get msgs 0 i hi
    simp only [Nat.sub_zero] at hgi
    unfold simple_truncate_loop at hok
    by_cases hc0 : ((total_tokens msgs : Int) ≤ maxT : Prop)
    · rw [if_pos hc0] at hok
      injection hok with hok
      subst hok
      left; exact hc0
    · rw [if_neg hc0] at hok
      simp only [hgi] at hok
      unfold simple_truncate_loop at hok
      injection hok with hok
      subst hok
      right; left
      apply all_pinned_of_no_movable
      have herase := filter_length_eraseIdx movable msgs i mi hgi
      simp [hmovi] at herase
      omega
  · -- two movable messages, at indices i < j
    have hrest : rest = [] := by
      rw [hri] at hlen
      simp only [List.length_cons] at hlen
      have := List.length_eq_zero.mp (show rest.length = 0 by omega)
      exact this
    subst hrest
    have hpw := rif_pairwise msgs 0
    rw [hri] at hpw
    have hij : i < j := by
      rcases List.pairwise_cons.mp hpw with ⟨hfa, _⟩
      exact hfa j (by simp)
    have hi : i ∈ removable_indices_from 0 msgs := by
      rw [hri]; simp
    have hj : j ∈ removable_indices_from 0 msgs := by
      rw [hri]; simp
    obtain ⟨mi, hgi, hmovi⟩ := rif_mem_get msgs 0 i hi
    obtain ⟨mj, hgj, hmovj⟩ := rif_mem_get msgs 0 j hj
    simp only [Nat.sub_zero] at hgi hgj
    rw [hri] at hok
    unfold simple_truncate_loop at hok
    by_cases hc0 : ((total_tokens msgs : Int) ≤ maxT : Prop)
    · rw [if_pos hc0] at hok
      injection hok with hok
      subst hok
      left; exact hc0
    · rw [if_neg hc0] at hok
      simp only [hgi] at hok
      have htot1 := total_tokens_eraseIdx msgs i mi hgi
      unfold simple_truncate_loop at hok
      by_cases hc1 : ((total_tokens msgs : Int) - (mi.token_count : Int) ≤ maxT : Prop)
      · rw [if_pos hc1] at hok
        injection hok with hok
        subst hok
        left
        omega
      · rw [if_neg hc1] at hok
        rcases hg2 : (msgs.eraseIdx i).get? j with _ | mx
        · simp only [hg2] at hok
          simp at hok
        · simp only [hg2] at hok
          unfold simple_truncate_loop at hok
          injection hok with hok
          subst hok
          -- the element actually popped sits at original index j + 1
          have hgx : msgs.get? (j + 1) = some mx := by
            rw [← get_eraseIdx_ge msgs i j (by omega)]
            exact hg2
          have hxpin : pinned_or_system mx = true := by
            by_cases hmx : movable mx = true
            · exfalso
              have hmem := rif_mem_of_movable msgs 0 (j + 1) mx hgx hmx
              rw [hri] at hmem
              simp only [List.mem_cons, List.not_mem_nil, or_false] at hmem
              omega
            · exact pinned_of_not_movable mx (by simpa using hmx)
          right; right
          have hs1 := filter_length_eraseIdx pinned_or_system msgs i mi hgi
          have hmi_pin : pinned_or_system mi = false := by
            have h2 := movable_eq_not_pinned mi
            rw [hmovi] at h2
            cases hp : pinned_or_system mi
            · rfl
            · rw [hp] at h2; simp at h2
          simp [hmi_pin] at hs1
          have hs2 := filter_length_eraseIdx pinned_or_system (msgs.eraseIdx i) j mx hg2
          simp [hxpin] at hs2
          omega

theorem total_tokens_filter_movable_pos (l : List ConversationMessage)
    (h : 2 < (l.filter movable).length) : l.filter movable ≠ [] := by
  intro hnil
  rw [hnil] at h
  simp at h

/-- Claim C5: whenever summarize-and-evict actually runs (buffer over budget
and strictly more than two movable messages) the resulting list is exactly
the pinned/system messages in original order, then the single synthesized
summary message, then the greedily kept movable messages, which form a
subsequence of the movable messages in chronological order; and with at most
two movable messages the pass is exactly simple eviction. -/
theorem C5_summary_placement (s : ManagerState) (maxT : Int)
    (hover : maxT < (total_tokens s.messages : Int))
    (hmov : 2 < (s.messages.filter movable).length) :
    (∃ keep summ : List ConversationMessage,
        summ ≠ [] ∧
        keep.Sublist (s.messages.filter movable) ∧
        truncate_with_summary s maxT =
          Except.ok (ManagerState.mk s.session_id
            (s.messages.filter pinned_or_system ++
              [mk_summary_message (create_summary summ) s.clock] ++ keep)
            s.current_model s.model_configs (s.clock + 1))) ∧
    (∀ (s2 : ManagerState) (maxT2 : Int),
        (s2.messages.filter movable).length ≤ 2 →
        truncate_with_summary s2 maxT2 =
          (simple_truncate s2.messages maxT2).map (fun ms =>
            ManagerState.mk s2.session_id ms s2.current_model s2.model_configs s2.clock)) := by
  constructor
  · have h22 : ¬((s.messages.filter movable).length ≤ 2) := by omega
    unfold truncate_with_summary
    rw [if_neg h22]
    have hne : (greedy_loop
        (maxT - (total_tokens (s.messages.filter pinned_or_system) : Int))
        (s.messages.filter movable).reverse 0 [] []).2 ≠ [] := by
      intro hnil
      rcases greedy_summ_nil _ _ 0 [] [] hnil with hle | hnilrev
      · rw [total_tokens_reverse] at hle
        have hpart := total_tokens_partition s.messages
        omega
      · rw [List.reverse_eq_nil_iff] at hnilrev
        rw [hnilrev] at hmov
        simp at hmov
    rw [if_neg (by simpa [List.isEmpty_iff] using hne)]
    refine ⟨_, _, hne, ?_, rfl⟩
    obtain ⟨l, hl, hs⟩ := greedy_keep_split
      (maxT - (total_tokens (s.messages.filter pinned_or_system) : Int))
      (s.messages.filter movable).reverse 0 [] []
    rw [hl]
    simpa using hs
  · intro s2 maxT2 h
    simp only [truncate_with_summary]
    rw [if_pos h]

/-- Claim C3 amended: after an eviction pass triggered by add_message that
completes without raising an exception, either the total token count is within
the effective budget, or every remaining message is pinned/system, or the pass
summarized and the total exceeds the budget by at most the synthesized summary
token_count of that summary message (the greedy walk budgets the kept messages but not the
summary it appends), or the stale-index defect in _simple_truncate removed a
pinned or system message (their count strictly decreases). -/
theorem C3_amended_eviction (s s2 : ManagerState)
    (hth : (get_model_config s).summary_threshold = (7 : ℚ) / 10)
    (hok : manage_buffer_size s = Except.ok s2) :
    (total_tokens s2.messages : Int) ≤
        (get_model_config s).max_tokens - (get_model_config s).reserve_tokens ∨
    (∀ m ∈ s2.messages, pinned_or_system m = true) ∨
    (∃ sm ∈ s2.messages, sm.is_summary = true ∧
        (total_tokens s2.messages : Int) ≤
          (get_model_config s).max_tokens - (get_model_config s).reserve_tokens +
            (sm.token_count : Int)) ∨
    (s2.messages.filter pinned_or_system).length <
        (s.messages.filter pinned_or_system).length := by
  unfold manage_buffer_size at hok
  simp only [hth] at hok
  by_cases h1 : ((total_tokens s.messages : Int) ≤
      (get_model_config s).max_tokens - (get_model_config s).reserve_tokens : Prop)
  · rw [if_pos h1] at hok
    injection hok with hok
    subst hok
    left; exact h1
  · rw [if_neg h1] at hok
    have hlt := threshold_lt_current
      ((get_model_config s).max_tokens - (get_model_config s).reserve_tokens)
      (total_tokens s.messages : Int) (by omega) (Int.natCast_nonneg _)
    rw [if_pos hlt] at hok
    unfold truncate_with_summary at hok
    by_cases h22 : ((s.messages.filter movable).length ≤ 2 : Prop)
    · rw [if_pos h22] at hok
      rcases hst : simple_truncate s.messages
          ((get_model_config s).max_tokens - (get_model_config s).reserve_tokens)
        with e | ms
      · rw [hst] at hok
        simp [Except.map] at hok
      · rw [hst] at hok
        simp only [Except.map] at hok
        injection hok with hok
        subst hok
        rcases simple_truncate_cases s.messages
            ((get_model_config s).max_tokens - (get_model_config s).reserve_tokens)
            ms h22 hst with hA | hB | hC
        · left; exact hA
        · right; left; exact hB
        · right; right; right; exact hC
    · rw [if_neg h22] at hok
      by_cases hemp : (((greedy_loop
          ((get_model_config s).max_tokens - (get_model_config s).reserve_tokens -
            (total_tokens (s.messages.filter pinned_or_system) : Int))
          (s.messages.filter movable).reverse 0 [] []).2.isEmpty) : Prop)
      · exfalso
        rcases greedy_summ_nil _ _ 0 [] [] (List.isEmpty_iff.mp hemp) with hle | hnil
        · rw [total_tokens_reverse] at hle
          have hpart := total_tokens_partition s.messages
          omega
        · rw [List.reverse_eq_nil_iff] at hnil
          rw [hnil] at h22
          simp at h22
      · rw [if_neg hemp] at hok
        injection hok with hok
        subst hok
        by_cases htg : ((0 : Int) ≤
            (get_model_config s).max_tokens - (get_model_config s).reserve_tokens -
              (total_tokens (s.messages.filter pinned_or_system) : Int) : Prop)
        · -- the kept movable block fits the remaining budget; only the
          -- summary message itself can overflow
          right; right; left
          refine ⟨mk_summary_message (create_summary ((greedy_loop
              ((get_model_config s).max_tokens - (get_model_config s).reserve_tokens -
                (total_tokens (s.messages.filter pinned_or_system) : Int))
              (s.messages.filter movable).reverse 0 [] []).2)) s.clock, ?_, rfl, ?_⟩
          · simp
          · have hsum := greedy_keep_sum
              ((get_model_config s).max_tokens - (get_model_config s).reserve_tokens -
                (total_tokens (s.messages.filter pinned_or_system) : Int))
              (s.messages.filter movable).reverse 0 [] [] htg
            have hz : total_tokens ([] : List ConversationMessage) = 0 := rfl
            simp only [total_tokens_append, total_tokens_cons, hz, Nat.add_zero] at hsum ⊢
            push_cast at hsum ⊢
            omega
        · -- the pinned block alone exceeds the budget: nothing movable is
          -- kept, everything left is pinned/system
          right; left
          have hkeep := greedy_keep_neg
            ((get_model_config s).max_tokens - (get_model_config s).reserve_tokens -
              (total_tokens (s.messages.filter pinned_or_system) : Int))
            (s.messages.filter movable).reverse 0 [] [] (by omega) (le_refl 0)
          rw [hkeep]
          intro m hm
          rw [List.append_nil] at hm
          rcases List.mem_append.mp hm with hm | hm
          · exact (List.mem_filter.mp hm).2
          · rw [List.mem_singleton] at hm
            subst hm
            rfl

/-- Concrete instantiation of C5: a buffer with budget 12, one 10-token system
message and three 5-token user messages is over budget with three movable
messages, so the summarize-and-evict shape theorem applies to it. -/
theorem C5_witness :
    ((12 : Int) < (total_tokens c5w.messages : Int)) ∧
    (2 < (c5w.messages.filter movable).length) ∧
    ((∃ keep summ : List ConversationMessage,
        summ ≠ [] ∧
        keep.Sublist (c5w.messages.filter movable) ∧
        truncate_with_summary c5w 12 =
          Except.ok (ManagerState.mk c5w.session_id
            (c5w.messages.filter pinned_or_system ++
              [mk_summary_message (create_summary summ) c5w.clock] ++ keep)
            c5w.current_model c5w.model_configs (c5w.clock + 1))) ∧
    (∀ (s2 : ManagerState) (maxT2 : Int),
        (s2.messages.filter movable).length ≤ 2 →
        truncate_with_summary s2 maxT2 =
          (simple_truncate s2.messages maxT2).map (fun ms =>
            ManagerState.mk s2.session_id ms s2.current_model s2.model_configs s2.clock))) :=
  ⟨by decide, by decide, C5_summary_placement c5w 12 (by decide) (by decide)⟩

/-- Concrete instantiation of C3 (amended): the empty-buffer state has the
default 0.7 threshold and its pass returns it unchanged under budget. -/
theorem C3_amended_witness :
    ((get_model_config c3aw).summary_threshold = (7 : ℚ) / 10) ∧
    (manage_buffer_size c3aw = Except.ok c3aw) ∧
    ((total_tokens c3aw.messages : Int) ≤
        (get_model_config c3aw).max_tokens - (get_model_config c3aw).reserve_tokens ∨
      (∀ m ∈ c3aw.messages, pinned_or_system m = true) ∨
      (∃ sm ∈ c3aw.messages, sm.is_summary = true ∧
          (total_tokens c3aw.messages : Int) ≤
            (get_model_config c3aw).max_tokens - (get_model_config c3aw).reserve_tokens +
              (sm.token_count : Int)) ∨
      (c3aw.messages.filter pinned_or_system).length <
          (c3aw.messages.filter pinned_or_system).length) :=
  ⟨rfl, rfl, C3_amended_eviction c3aw c3aw rfl rfl⟩

theorem gmc_none (s : ManagerState) (h : s.current_model = none) :
    get_model_config s = mkModelConfig "Default" 32000 := by
  unfold get_model_config
  rw [h]

theorem total_tokens_nil : total_tokens ([] : List ConversationMessage) = 0 := rfl

/- A default-model add_message that stays within the 31000-token budget simply
   appends the new message. -/
theorem add_message_default_ok (s : ManagerState) (role content : String) (pinned : Bool)
    (hcm : s.current_model = none)
    (htot : total_tokens s.messages + count_tokens content ≤ 31000) :
    add_message s role content pinned =
      Except.ok (ManagerState.mk s.session_id
        (s.messages ++
          [ConversationMessage.mk role content s.clock (count_tokens content) pinned false])
        s.current_model s.model_configs (s.clock + 1),
        ConversationMessage.mk role content s.clock (count_tokens content) pinned false) := by
  simp only [add_message, manage_buffer_size]
  rw [gmc_none _ (by exact hcm)]
  simp only [mkModelConfig]
  rw [if_pos (by
    simp only [total_tokens_append, total_tokens_cons, total_tokens_nil, Nat.add_zero]
    push_cast
    omega)]
  rfl

theorem count_a : count_tokens "a" = 1 := by decide

theorem count_big_a_124000 : count_tokens (big_a 124000) = 31000 := by
  rw [count_big_a 124000 (by norm_num)]
  decide

theorem count_big_a_124004 : count_tokens (big_a 124004) = 31001 := by
  rw [count_big_a 124004 (by norm_num)]
  decide

theorem count_big_a_1708 : count_tokens (big_a 1708) = 427 := by
  rw [count_big_a 1708 (by norm_num)]
  decide

theorem count_big_a_120000 : count_tokens (big_a 120000) = 30000 := by
  rw [count_big_a 120000 (by norm_num)]
  decide

theorem init_573 : manager_init "default" =
    ManagerState.mk "default" [S0msg] none MODEL_CONFIGS 1 := by
  unfold manager_init add_system_prompt mk_system_prompt S0msg
  rw [count_system_content]
  rfl

theorem tot_c1s3 : total_tokens [S0msg, c1u1, c1u2, c1p3] = 31575 := by
  norm_num [total_tokens, S0msg, c1u1, c1u2, c1p3]

theorem floor_31000_threshold :
    Int.floor ((((32000 : Int) - 1000 : Int) : ℚ) * ((7 : ℚ) / 10)) = 21700 := by
  rw [Int.floor_eq_iff]
  constructor <;> norm_num

theorem c1_simple :
    simple_truncate [S0msg, c1u1, c1u2, c1p3] (32000 - 1000) = Except.ok [S0msg, c1u2] := by
  unfold simple_truncate
  rw [show removable_indices [S0msg, c1u1, c1u2, c1p3] = [1, 2] from by decide,
    tot_c1s3]
  unfold simple_truncate_loop
  rw [if_neg (by norm_num)]
  simp only [List.get?]
  simp only [List.eraseIdx]
  unfold simple_truncate_loop
  rw [if_neg (by norm_num [c1u1])]
  simp only [List.get?]
  simp only [List.eraseIdx]
  unfold simple_truncate_loop
  rfl

theorem c1_manage :
    manage_buffer_size (ManagerState.mk "default" [S0msg, c1u1, c1u2, c1p3]
      none MODEL_CONFIGS 4) = Except.ok c1fin := by
  simp only [manage_buffer_size]
  rw [gmc_none _ rfl]
  simp only [mkModelConfig, tot_c1s3]
  rw [if_neg (by norm_num)]
  rw [if_pos (by rw [floor_31000_threshold]; norm_num)]
  simp only [truncate_with_summary]
  rw [show List.filter movable [S0msg, c1u1, c1u2, c1p3] = [c1u1, c1u2] from by decide]
  rw [if_pos (by simp)]
  rw [c1_simple]
  rfl

theorem except_bind_ok {α β : Type} (a : α) (f : α → Except Unit β) :
    (Except.ok a : Except Unit α) >>= f = f a := rfl

theorem c1_run_eq : c1_run = Except.ok (c1fin, c1p3) := by
  unfold c1_run
  rw [init_573]
  rw [add_message_default_ok _ "user" "a" false rfl
    (by norm_num [total_tokens, S0msg, count_a])]
  rw [except_bind_ok]
  rw [add_message_default_ok _ "user" "a" false rfl
    (by norm_num [total_tokens_append, total_tokens, S0msg, count_a])]
  rw [except_bind_ok]
  simp only [add_message, count_big_a_124000, count_a, List.cons_append, List.nil_append]
  rw [show ConversationMessage.mk "user" "a" 1 1 false false = c1u1 from rfl,
    show ConversationMessage.mk "user" "a" 2 1 false false = c1u2 from rfl,
    show ConversationMessage.mk "user" (big_a 124000) 3 31000 true false = c1p3 from rfl]
  rw [c1_manage]
  rfl

/-- Claim C1 (code-defect evidence): on a fresh default session, the sequence
add_message("user","a"), add_message("user","a"), then a pinned 31000-token
add_message succeeds, yet the pinned message returned by the third call has
been removed from the buffer by the eviction pass: _simple_truncate pops the
stale index 2 after the list shrank, deleting the pinned message while keeping
the older movable one, contradicting the pinned-preservation claim and the
"Pinned messages are never removed" comment in the source. -/
theorem C1_pinned_removed :
    c1_run = Except.ok (c1fin, c1p3) ∧
    c1p3.is_pinned = true ∧
    c1p3 ∉ c1fin.messages ∧
    c1fin.messages = [S0msg, c1u2] ∧
    S0msg.role = "system" ∧ S0msg.is_pinned = true ∧ c1u2.is_pinned = false := by
  refine ⟨c1_run_eq, rfl, ?_, rfl, rfl, rfl, rfl⟩
  intro hmem
  have hm2 : c1p3 ∈ [S0msg, c1u2] := hmem
  rcases List.mem_cons.mp hm2 with h | h
  · exact absurd (congrArg (fun m => m.timestamp) h) (by decide)
  · rcases List.mem_cons.mp h with h | h
    · exact absurd (congrArg (fun m => m.timestamp) h) (by decide)
    · simp at h

theorem tot_c2s2 : total_tokens [S0msg, c1u1, c2u2] = 31575 := by
  norm_num [total_tokens, S0msg, c1u1, c2u2]

theorem c2_simple_err :
    simple_truncate [S0msg, c1u1, c2u2] (32000 - 1000) = Except.error () := by
  unfold simple_truncate
  rw [show removable_indices [S0msg, c1u1, c2u2] = [1, 2] from rfl, tot_c2s2]
  unfold simple_truncate_loop
  rw [if_neg (by norm_num)]
  simp only [List.get?]
  simp only [List.eraseIdx]
  unfold simple_truncate_loop
  rw [if_neg (by norm_num [c1u1])]
  simp only [List.get?]

theorem c2_manage :
    manage_buffer_size (ManagerState.mk "default" [S0msg, c1u1, c2u2]
      none MODEL_CONFIGS 3) = Except.error () := by
  simp only [manage_buffer_size]
  rw [gmc_none _ rfl]
  simp only [mkModelConfig, tot_c2s2]
  rw [if_neg (by norm_num)]
  rw [if_pos (by rw [floor_31000_threshold]; norm_num)]
  simp only [truncate_with_summary]
  rw [show List.filter movable [S0msg, c1u1, c2u2] = [c1u1, c2u2] from rfl]
  rw [if_pos (by simp)]
  rw [c2_simple_err]
  rfl

/-- Claim C2 (code-defect evidence): on a fresh default session,
add_message("user","a") followed by add_message of a 124004-character message
(31001 estimated tokens) raises IndexError: the eviction loop pops stale
index 2 of the two-element list that remains after the first pop, so
add_message is not total on reachable buffers. -/
theorem C2_index_error : c2_run = Except.error () := by
  unfold c2_run
  rw [init_573]
  rw [add_message_default_ok _ "user" "a" false rfl
    (by norm_num [total_tokens, S0msg, count_a])]
  rw [except_bind_ok]
  simp only [add_message, count_big_a_124004, count_a, List.cons_append, List.nil_append]
  rw [show ConversationMessage.mk "user" "a" 1 1 false false = c1u1 from rfl,
    show ConversationMessage.mk "user" (big_a 124004) 2 31001 false false = c2u2 from rfl]
  rw [c2_manage]
  rfl

theorem tot_c3s3 : total_tokens [S0msg, c1u1, c3u2, c3u3] = 31001 := by
  norm_num [total_tokens, S0msg, c1u1, c3u2, c3u3]

theorem htp_573 : total_tokens [S0msg] = 573 := by norm_num [total_tokens, S0msg]

theorem c3_greedy :
    greedy_loop (32000 - 1000 - ((573 : Nat) : Int)) [c3u3, c3u2, c1u1] 0 [] [] =
      ([c3u2, c3u3], [c1u1]) := by
  unfold greedy_loop
  rw [if_pos (by norm_num [c3u3])]
  unfold greedy_loop
  rw [if_pos (by norm_num [c3u3, c3u2])]
  unfold greedy_loop
  rw [if_neg (by norm_num [c3u3, c3u2, c1u1])]
  unfold greedy_loop
  rfl

theorem c3_manage :
    manage_buffer_size (ManagerState.mk "default" [S0msg, c1u1, c3u2, c3u3]
      none MODEL_CONFIGS 4) = Except.ok c3fin := by
  simp only [manage_buffer_size]
  rw [gmc_none _ rfl]
  simp only [mkModelConfig, tot_c3s3]
  rw [if_neg (by norm_num)]
  rw [if_pos (by rw [floor_31000_threshold]; norm_num)]
  simp only [truncate_with_summary]
  rw [show List.filter movable [S0msg, c1u1, c3u2, c3u3] = [c1u1, c3u2, c3u3] from rfl]
  rw [if_neg (by simp)]
  rw [show List.filter pinned_or_system [S0msg, c1u1, c3u2, c3u3] = [S0msg] from rfl]
  rw [htp_573]
  rw [show [c1u1, c3u2, c3u3].reverse = [c3u3, c3u2, c1u1] from rfl]
  rw [c3_greedy]
  simp only [List.isEmpty_cons, Bool.false_eq_true, if_false]
  rw [show create_summary [c1u1] = "User asked: a" from by decide]
  rw [show mk_summary_message "User asked: a" 4 = c3sum from by decide]
  simp only [List.cons_append, List.nil_append]
  rfl

theorem c3_run_eq : c3_run = Except.ok (c3fin, c3u3) := by
  unfold c3_run
  rw [init_573]
  rw [add_message_default_ok _ "user" "a" false rfl
    (by norm_num [total_tokens, S0msg, count_a])]
  rw [except_bind_ok]
  rw [add_message_default_ok _ "user" (big_a 1708) false rfl
    (by norm_num [total_tokens_append, total_tokens, S0msg, count_a, count_big_a_1708])]
  rw [except_bind_ok]
  simp only [add_message, count_big_a_120000, count_a, count_big_a_1708,
    List.cons_append, List.nil_append]
  rw [show ConversationMessage.mk "user" "a" 1 1 false false = c1u1 from rfl,
    show ConversationMessage.mk "user" (big_a 1708) 2 427 false false = c3u2 from rfl,
    show ConversationMessage.mk "user" (big_a 120000) 3 30000 false false = c3u3 from rfl]
  rw [c3_manage]
  rfl

/-- Claim C3 counterexample: after the summarize-and-evict pass triggered by
the third add of c3_run, the buffer [system prompt (573), summary (3),
427-token user, 30000-token user] totals 31003, strictly above the default
effective budget 31000, while a movable (non-pinned, non-system) message is
still present: "total within budget or everything pinned/system" fails. -/
theorem C3_counterexample :
    c3_run = Except.ok (c3fin, c3u3) ∧
    (get_model_config c3fin).max_tokens - (get_model_config c3fin).reserve_tokens <
      (total_tokens c3fin.messages : Int) ∧
    ∃ m ∈ c3fin.messages, movable m = true := by
  refine ⟨c3_run_eq, ?_, ?_⟩
  · have htot : total_tokens c3fin.messages = 31003 := by
      norm_num [c3fin, total_tokens, S0msg, c3sum, c3u2, c3u3]
    rw [gmc_none c3fin rfl, htot]
    norm_num [mkModelConfig]
  · refine ⟨c3u2, ?_, rfl⟩
    show c3u2 ∈ [S0msg, c3sum, c3u2, c3u3]
    exact List.mem_cons_of_mem _ (List.mem_cons_of_mem _ (List.mem_cons_self _ _))

/-- Claim C6 counterexample: the summary message synthesized during c3_run
stores token_count = count_tokens "User asked: a" = 3, while its content field
is "[CONVERSATION SUMMARY] User asked: a" whose estimate is 9: for the summary
message, token_count is not the estimator value of the stored content. -/
theorem C6_counterexample :
    c3_run = Except.ok (c3fin, c3u3) ∧
    c3sum ∈ c3fin.messages ∧ c3sum.is_summary = true ∧
    c3sum.token_count = 3 ∧ count_tokens c3sum.content = 9 ∧
    c3sum.token_count ≠ count_tokens c3sum.content := by
  refine ⟨c3_run_eq, ?_, rfl, rfl, by decide, by decide⟩
  show c3sum ∈ [S0msg, c3sum, c3u2, c3u3]
  exact List.mem_cons_of_mem _ (List.mem_cons_self _ _)

/-- Claim C6 amended: token_count equals the estimator value of the content
field for every message created by add_message and for the seeded system
prompt; the synthesized summary message instead stores the estimate of the
summary body, while its content carries the "[CONVERSATION SUMMARY] " marker
in front of that body. -/
theorem C6_amended_token_counts :
    (∀ (s : ManagerState) (role content : String) (pinned : Bool)
        (s2 : ManagerState) (msg : ConversationMessage),
        add_message s role content pinned = Except.ok (s2, msg) →
        msg.content = content ∧ msg.token_count = count_tokens msg.content) ∧
    (∀ ts, (mk_system_prompt ts).content = system_content ∧
        (mk_system_prompt ts).token_count = 573 ∧ count_tokens system_content = 573) ∧
    (∀ body ts, (mk_summary_message body ts).content = "[CONVERSATION SUMMARY] " ++ body ∧
        (mk_summary_message body ts).token_count = count_tokens body) := by
  refine ⟨?_, fun ts => ⟨rfl, ?_, count_system_content⟩, fun body ts => ⟨rfl, rfl⟩⟩
  case refine_2 =>
    simp only [mk_system_prompt]
    exact count_system_content
  intro s role content pinned s2 msg h
  simp only [add_message] at h
  rcases hm : manage_buffer_size (ManagerState.mk s.session_id
      (s.messages ++
        [ConversationMessage.mk role content s.clock (count_tokens content) pinned false])
      s.current_model s.model_configs (s.clock + 1)) with e | st
  · rw [hm] at h
    simp [Except.map] at h
  · rw [hm] at h
    simp only [Except.map] at h
    injection h with h
    injection h with ha hb
    subst hb
    exact ⟨rfl, rfl⟩

/-- Concrete instantiation of C6 (amended): a successful small add stores
token_count = count_tokens of the stored content. -/
theorem C6_amended_witness :
    add_message c3aw "user" "hi" false = Except.ok (cw6state, cw6msg) ∧
    (cw6msg.content = "hi" ∧ cw6msg.token_count = count_tokens cw6msg.content) :=
  ⟨rfl, C6_amended_token_counts.1 c3aw "user" "hi" false cw6state cw6msg rfl⟩

theorem import_msgs_false_bad (parse_iso : String → Option Nat) :
    ∀ (l : List MsgData) (acc : List ConversationMessage),
      (import_msgs parse_iso l acc).2 = false →
      ∃ md ∈ l, parse_msg parse_iso md = none := by
  intro l
  induction l with
  | nil => intro acc h; simp [import_msgs] at h
  | cons md rest ih =>
    intro acc h
    unfold import_msgs at h
    rcases hp : parse_msg parse_iso md with _ | m
    · exact ⟨md, List.mem_cons_self _ _, hp⟩
    · simp only [hp] at h
      obtain ⟨md2, hmem, hbad⟩ := ih (acc ++ [m]) h
      exact ⟨md2, List.mem_cons_of_mem _ hmem, hbad⟩

/-- Claim C7 amended: import_conversation unconditionally overwrites
session_id, current_model and the message list (rebuilt from the entries
parsed before the first malformed one); a malformed entry makes it fail, but
the mutations already made are not rolled back, so the in-memory state is not
left untouched. -/
theorem C7_amended_import (parse_iso : String → Option Nat) (s : ManagerState)
    (data : ImportData) :
    (import_conversation parse_iso s data).1.session_id = data.session_id.getD "default" ∧
    (import_conversation parse_iso s data).1.current_model = data.current_model ∧
    (import_conversation parse_iso s data).1.messages =
      (import_msgs parse_iso data.messages []).1 ∧
    ((import_conversation parse_iso s data).2 = false →
      ∃ md ∈ data.messages, parse_msg parse_iso md = none) := by
  refine ⟨rfl, rfl, rfl, ?_⟩
  intro h
  exact import_msgs_false_bad parse_iso data.messages [] h

/-- Concrete instantiation of C7 (amended): importing the malformed payload
fails and the payload indeed contains an unparseable entry. -/
theorem C7_amended_witness :
    ((import_conversation (fun _ => some 0) c3aw c7_bad_data).2 = false) ∧
    (∃ md ∈ c7_bad_data.messages, parse_msg (fun _ => some 0) md = none) :=
  ⟨rfl, (C7_amended_import (fun _ => some 0) c3aw c7_bad_data).2.2.2 rfl⟩

/-- Claim C7 counterexample: importing data whose single message entry misses
the content field is rejected (TypeError in the source), yet the manager state
is not what it was before the call: session_id has already been overwritten
from "orig" to "evil" and the message list was reset.  The import is not
atomic with respect to failure. -/
theorem C7_counterexample :
    (import_conversation (fun _ => some 0) (manager_init "orig") c7_bad_data).2 = false ∧
    (import_conversation (fun _ => some 0) (manager_init "orig") c7_bad_data).1.session_id =
      "evil" ∧
    (manager_init "orig").session_id = "orig" ∧
    (import_conversation (fun _ => some 0) (manager_init "orig") c7_bad_data).1.messages =
      [] ∧
    (manager_init "orig").messages ≠ [] := by
  refine ⟨rfl, rfl, rfl, rfl, ?_⟩
  intro h
  exact absurd (congrArg List.length h) (by decide)
